import Mathlib

/-!
Shallow embedding of the Contab-PY document-to-ledger core:
the DTE XML normalizer (procesador_xml.py) and the double-entry
posting engine (logica_contable.py, db_config.py).

Monetary amounts are modelled as exact rationals; machine
floating-point rounding and IEEE special values are outside the
model (no claim here depends on them).  The persistent store is
modelled as an explicit record of table contents; a failing
operation returns an error and no store, which models the
all-or-nothing transaction of SessionLocal.begin().
-/

namespace ContabPy

/-- Value domain of an xmltodict.parse result: Python None, strings,
dicts (association lists with the keys in insertion order, keys
unique as produced by xmltodict) and lists. -/
inductive XmlVal where
  | null : XmlVal
  | str : String → XmlVal
  | dict : List (String × XmlVal) → XmlVal
  | list : List XmlVal → XmlVal
deriving Repr

/-- Equality of Except values is decidable componentwise; used to
evaluate the embedded operations on concrete inputs. -/
instance {ε α : Type} [DecidableEq ε] [DecidableEq α] : DecidableEq (Except ε α) := fun a b =>
  match a, b with
  | .ok x, .ok y =>
    if h : x = y then isTrue (by rw [h]) else isFalse (fun hc => h (Except.ok.inj hc))
  | .error x, .error y =>
    if h : x = y then isTrue (by rw [h]) else isFalse (fun hc => h (Except.error.inj hc))
  | .ok _, .error _ => isFalse (fun hc => Except.noConfusion hc)
  | .error _, .ok _ => isFalse (fun hc => Except.noConfusion hc)

/-- Model of datetime.date values (datetime.strptime(s, "%Y-%m-%d").date()). -/
structure Fecha where
  anio : Nat
  mes : Nat
  dia : Nat
deriving Repr, DecidableEq

mutual

/-- procesador_xml.py lines 11-25, _buscar_nodo_recursivo: depth-first
search for a key in the parsed tree.  Python conflates the value None
with the not-found outcome (it checks found is not None), so the
result is an XmlVal where XmlVal.null plays the role of Python None. -/
def _buscar_nodo_recursivo : XmlVal → String → XmlVal
  | .dict entradas, clave_objetivo => _buscar_en_entradas entradas clave_objetivo
  | .list items, clave_objetivo => _buscar_en_items items clave_objetivo
  | _, _ => .null

/-- The dict branch of _buscar_nodo_recursivo (lines 13-19): a matching
key returns its value at once (even a None value); otherwise the value
is searched recursively and a non-None find is returned. -/
def _buscar_en_entradas : List (String × XmlVal) → String → XmlVal
  | [], _ => .null
  | (key, value) :: resto, clave_objetivo =>
    if key == clave_objetivo then value
    else
      match _buscar_nodo_recursivo value clave_objetivo with
      | .null => _buscar_en_entradas resto clave_objetivo
      | found => found

/-- The list branch of _buscar_nodo_recursivo (lines 20-24). -/
def _buscar_en_items : List XmlVal → String → XmlVal
  | [], _ => .null
  | item :: resto, clave_objetivo =>
    match _buscar_nodo_recursivo item clave_objetivo with
    | .null => _buscar_en_items resto clave_objetivo
    | found => found

end

/-- Python truthiness on the parsed-XML value domain (the check
at line 45, if not encabezado). -/
def pyTruthy : XmlVal → Bool
  | .null => false
  | .str s => !s.isEmpty
  | .dict entradas => !entradas.isEmpty
  | .list items => !items.isEmpty

/-- Python str(...) on the parsed-XML value domain: str(None) is the
four-letter string None, strings are unchanged.  Containers would be
rendered through their repr, which nothing in this development reads;
they are rendered by a fixed marker. -/
def pyStr : XmlVal → String
  | .null => "None"
  | .str s => s
  | .dict _ => "<dict>"
  | .list _ => "<list>"

/-- Python dict.get(clave, defecto) on an association list: the stored
value is returned whenever the key is present, even when that value is
None; the default is used only for an absent key. -/
def dict_get (entradas : List (String × XmlVal)) (clave : String) (defecto : XmlVal) : XmlVal :=
  match entradas.find? (fun par => par.1 == clave) with
  | some par => par.2
  | none => defecto

/-- The attribute access v.get(clave, defecto): succeeds on a dict,
raises AttributeError (carried as a cause string) on any other value. -/
def py_get (v : XmlVal) (clave : String) (defecto : XmlVal) : Except String XmlVal :=
  match v with
  | .dict entradas => .ok (dict_get entradas clave defecto)
  | .str _ => .error "AttributeError: el objeto str no tiene atributo get"
  | .list _ => .error "AttributeError: el objeto list no tiene atributo get"
  | .null => .error "AttributeError: el objeto NoneType no tiene atributo get"

/-- Whitespace as recognised by Python str.strip and float (the ASCII
subset; wider Unicode whitespace is outside the model). -/
def esEspacioPython (c : Char) : Bool :=
  c == ' ' || c == '\t' || c == '\n' || c == '\r' || c == '\x0b' || c == '\x0c'

/-- Modelled from the standard library: Python str.strip() with no
argument, removing whitespace from both ends. -/
def recortar (s : String) : String :=
  (((s.toList.dropWhile esEspacioPython).reverse.dropWhile esEspacioPython).reverse).asString

/-- Split a character list at every occurrence of a separator, with the
semantics of str.split(sep): the empty list yields one empty field. -/
def dividirEnChar (sep : Char) : List Char → List (List Char)
  | [] => [[]]
  | c :: resto =>
    let siguiente := dividirEnChar sep resto
    if c == sep then [] :: siguiente
    else
      match siguiente with
      | primero :: demas => (c :: primero) :: demas
      | [] => [[c]]

/-- Digits-only test (at least one digit) used by the numeric and date
parsing models. -/
def soloDigitos (cs : List Char) : Bool :=
  !cs.isEmpty && cs.all Char.isDigit

/-- Decimal value of a digit list. -/
def digitosANat (cs : List Char) : Nat :=
  cs.foldl (fun acc c => acc * 10 + (c.toNat - 48)) 0

/-- Mantissa of a Python float literal: digits with an optional single
decimal point and at least one digit overall.  Built with mkRat so the
value reduces inside the kernel. -/
def analizar_mantisa (cs : List Char) : Option Rat :=
  match dividirEnChar '.' cs with
  | [ent] =>
    if soloDigitos ent then some (mkRat (Int.ofNat (digitosANat ent)) 1) else none
  | [ent, frac] =>
    if (ent.all Char.isDigit && frac.all Char.isDigit) && !(ent ++ frac).isEmpty then
      some (mkRat (Int.ofNat (digitosANat (ent ++ frac))) (Nat.pow 10 frac.length))
    else none
  | _ => none

/-- Exponent part of a Python float literal: optional sign then digits. -/
def analizar_exponente (cs : List Char) : Option Int :=
  match cs with
  | '+' :: resto => if soloDigitos resto then some (Int.ofNat (digitosANat resto)) else none
  | '-' :: resto => if soloDigitos resto then some (-(Int.ofNat (digitosANat resto))) else none
  | _ => if soloDigitos cs then some (Int.ofNat (digitosANat cs)) else none

/-- Scale a rational by a power of ten (the exponent of a float
literal). -/
def escalarPorDiez (m : Rat) (e : Int) : Rat :=
  match e with
  | .ofNat n => m * mkRat (Int.ofNat (Nat.pow 10 n)) 1
  | .negSucc n => m * mkRat 1 (Nat.pow 10 (n + 1))

/-- Modelled from the standard library: Python float(str).  Surrounding
whitespace is stripped, then an optional sign, a mantissa and an
optional case-insensitive exponent are accepted.  IEEE specials
(inf, nan), underscores in literals and binary rounding are outside
this exact-rational model; no claim depends on them. -/
def pyFloat? (s : String) : Option Rat :=
  let sinEspacios := ((s.toList.dropWhile esEspacioPython).reverse.dropWhile esEspacioPython).reverse
  let normalizado := sinEspacios.map (fun c => if c == 'E' then 'e' else c)
  let (negativo, cuerpo) : Bool × List Char :=
    match normalizado with
    | '+' :: resto => (false, resto)
    | '-' :: resto => (true, resto)
    | cs => (false, cs)
  let conSigno : Rat → Rat := fun m => if negativo then -m else m
  match dividirEnChar 'e' cuerpo with
  | [mant] => (analizar_mantisa mant).map conSigno
  | [mant, expo] =>
    match analizar_mantisa mant, analizar_exponente expo with
    | some m, some e => some (conSigno (escalarPorDiez m e))
    | _, _ => none
  | _ => none

/-- procesador_xml.py lines 28-32, _safe_float: float(value) with
TypeError/ValueError resolved to 0.0.  float raises TypeError on None
and on containers, ValueError on a non-numeric string. -/
def _safe_float (value : XmlVal) : Rat :=
  match value with
  | .str s => (pyFloat? s).getD 0
  | _ => 0

/-- Number of days accepted by strptime for a month. -/
def dias_en_mes (anio mes : Nat) : Nat :=
  if mes = 2 then
    if (anio % 4 = 0 && anio % 100 != 0) || anio % 400 = 0 then 29 else 28
  else if mes = 4 || mes = 6 || mes = 9 || mes = 11 then 30
  else 31

/-- Modelled from the standard library: datetime.strptime(s, "%Y-%m-%d"):
three dash-separated all-digit fields forming a valid calendar date. -/
def strptime_iso (s : String) : Option Fecha :=
  match dividirEnChar '-' s.toList with
  | [ys, ms, ds] =>
    if soloDigitos ys && soloDigitos ms && soloDigitos ds then
      let anio := digitosANat ys
      let mes := digitosANat ms
      let dia := digitosANat ds
      if (1 ≤ mes && mes ≤ 12) && (1 ≤ dia && dia ≤ dias_en_mes anio mes) then
        some ⟨anio, mes, dia⟩
      else none
    else none
  | _ => none

/-- Lines 52-53 applied to the looked-up FchEmis value: strptime demands
a string (TypeError on None or a container) matching the date format
(ValueError otherwise). -/
def strptime_val (v : XmlVal) : Except String Fecha :=
  match v with
  | .str s =>
    match strptime_iso s with
    | some fecha => .ok fecha
    | none => .error "ValueError: la fecha no coincide con el formato %Y-%m-%d"
  | _ => .error "TypeError: strptime requiere un str"

/-- The dictionary returned by parsear_dte_xml (lines 55-65) and consumed
by generar_asiento as documento: Dict[str, Any].  razon_social is an
Option because the posting engine reads it with documento.get and its
dict argument need not contain the key; the normalizer always fills it. -/
structure DocumentoDict where
  folio : String
  tipo_dte : String
  fecha_emision : Fecha
  rut_emisor : String
  razon_social : Option String
  monto_neto : Rat
  monto_iva : Rat
  monto_total : Rat
  url_archivo : String
deriving Repr, DecidableEq

/-- The uniform failure of parsear_dte_xml (lines 66-67): a ValueError
whose message names the source file and wraps the original cause. -/
structure ErrorParseo where
  nombre_archivo : String
  causa : String
deriving Repr, DecidableEq

/-- Outcome of the external call xmltodict.parse(xml_bytes): either the
parsed tree or a raised exception rendered as its message. -/
def ResultadoXmltodict : Type := Except String XmlVal

/-- The message of the ValueError raised at line 46. -/
def mensajeSinEncabezado : String := "No se encontró nodo \x27Encabezado\x27 en el XML"

/-- The try-block body of parsear_dte_xml (lines 42-65), with every
failure carried as a cause string. -/
def parsear_cuerpo : Except String XmlVal → String → Except String DocumentoDict
  | .error mensaje, _ => .error mensaje
  | .ok data, nombre_archivo =>
    let encabezado := _buscar_nodo_recursivo data "Encabezado"
    if pyTruthy encabezado = false then .error mensajeSinEncabezado
    else
      match py_get encabezado "IdDoc" (.dict []) with
      | .error e => .error e
      | .ok id_doc =>
      match py_get encabezado "Emisor" (.dict []) with
      | .error e => .error e
      | .ok emisor =>
      match py_get encabezado "Totales" (.dict []) with
      | .error e => .error e
      | .ok totales =>
      match py_get id_doc "FchEmis" .null with
      | .error e => .error e
      | .ok fecha =>
      match strptime_val fecha with
      | .error e => .error e
      | .ok fecha_emision =>
      match py_get id_doc "Folio" (.str "") with
      | .error e => .error e
      | .ok folio_val =>
      match py_get id_doc "TipoDTE" (.str "") with
      | .error e => .error e
      | .ok tipo_val =>
      match py_get emisor "RUTEmisor" (.str "") with
      | .error e => .error e
      | .ok rut_val =>
      match py_get emisor "RznSoc" (.str "Proveedor sin nombre") with
      | .error e => .error e
      | .ok razon_val =>
      match py_get totales "MntNeto" .null with
      | .error e => .error e
      | .ok neto_val =>
      match py_get totales "IVA" .null with
      | .error e => .error e
      | .ok iva_val =>
      match py_get totales "MntTotal" .null with
      | .error e => .error e
      | .ok total_val =>
        .ok
          { folio := recortar (pyStr folio_val)
          , tipo_dte := recortar (pyStr tipo_val)
          , fecha_emision := fecha_emision
          , rut_emisor := recortar (pyStr rut_val)
          , razon_social := some (recortar (pyStr razon_val))
          , monto_neto := _safe_float neto_val
          , monto_iva := _safe_float iva_val
          , monto_total := _safe_float total_val
          , url_archivo := nombre_archivo }

/-- procesador_xml.py lines 35-67, parsear_dte_xml: the try-block body
with every internal failure re-raised as the single wrapped ValueError
kind carrying the filename and the cause. -/
def parsear_dte_xml (resultado : Except String XmlVal) (nombre_archivo : String) :
    Except ErrorParseo DocumentoDict :=
  match parsear_cuerpo resultado nombre_archivo with
  | .ok documento => .ok documento
  | .error causa => .error ⟨nombre_archivo, causa⟩

/-- Row of Tbl_PlanCuentas (db_config.py lines 29-35).  id_cuenta is an
autoincrement integer primary key. -/
structure TblPlanCuentas where
  id_cuenta : Nat
  codigo : String
  nombre : String
  tipo : String
deriving Repr, DecidableEq

/-- Row of Tbl_Proveedores (db_config.py lines 38-47): rut is the
primary key, cuenta_contable_default_id is a nullable foreign key. -/
structure TblProveedores where
  rut : String
  razon_social : String
  cuenta_contable_default_id : Option Nat
deriving Repr, DecidableEq

/-- Row of Tbl_Documentos (db_config.py lines 50-64), with the unique
constraint uq_doc_folio_rut_tipo on (folio, rut_emisor, tipo_dte).
Note the table has no razon_social column. -/
structure TblDocumentos where
  id : Nat
  folio : String
  tipo_dte : String
  fecha_emision : Fecha
  rut_emisor : String
  monto_neto : Rat
  monto_iva : Rat
  monto_total : Rat
  url_archivo : String
deriving Repr, DecidableEq

/-- Row of Tbl_Asientos (db_config.py lines 67-72). -/
structure TblAsientos where
  id : Nat
  id_documento : Nat
  fecha : Fecha
deriving Repr, DecidableEq

/-- Row of Tbl_Movimientos_Contables (db_config.py lines 75-83). -/
structure TblMovimientosContables where
  id : Nat
  id_asiento : Nat
  id_cuenta : Nat
  debe : Rat
  haber : Rat
  glosa : String
deriving Repr, DecidableEq

/-- The SQLite store: the five tables plus the next autoincrement ids
(SQLite assigns ids starting from 1). -/
structure BaseDatos where
  plan_cuentas : List TblPlanCuentas
  proveedores : List TblProveedores
  documentos : List TblDocumentos
  asientos : List TblAsientos
  movimientos : List TblMovimientosContables
  sig_id_documento : Nat := 1
  sig_id_asiento : Nat := 1
  sig_id_movimiento : Nat := 1
deriving Repr, DecidableEq

/-- The exception kinds the posting transaction can raise.  valueError
is the ConfigurationError raised for a missing mandatory account,
integrityError the uniqueness violation surfaced by SQLAlchemy at
flush, typeError the invalid-keyword failure of the declarative
constructor. -/
inductive ErrorBD where
  | valueError (mensaje : String)
  | integrityError (mensaje : String)
  | typeError (mensaje : String)
deriving Repr, DecidableEq

/-- Result dictionary of the posting operations: either the status ok
payload of generar_asiento (line 89) or the status duplicado payload of
the wrapper (line 97). -/
inductive ResultadoPost where
  | ok (documento_id : Nat) (asiento_id : Nat)
  | duplicado (motivo : String)
deriving Repr, DecidableEq

/-- logica_contable.py lines 19-23, _obtener_cuenta_por_nombre: first
account row with the given name, ValueError when there is none
(.first() returns the first match in table order). -/
def _obtener_cuenta_por_nombre (base : BaseDatos) (nombre : String) :
    Except ErrorBD TblPlanCuentas :=
  match base.plan_cuentas.find? (fun cuenta => cuenta.nombre == nombre) with
  | some cuenta => .ok cuenta
  | none => .error (.valueError ("No existe la cuenta obligatoria: " ++ nombre))

/-- Python x or y for the Optional[int] column value read at line 53:
None and 0 are falsy.  (SQLite autoincrement ids are never 0, so the
0 branch is unreachable in reachable stores.) -/
def pyOr (x : Option Nat) (y : Nat) : Nat :=
  match x with
  | some v => if v = 0 then y else v
  | none => y

/-- Lines 38 and 44-51: the supplier looked up by rut, created with the
fallback account as default when absent.  The lookup at line 38 is a
pure read; no failure or write happens between it and the creation
branch, so bundling them after the account lookups is behaviourally
identical to the source order. -/
def proveedor_resuelto (documento : DocumentoDict) (base : BaseDatos)
    (cuenta_gastos_default : TblPlanCuentas) : TblProveedores × BaseDatos :=
  match base.proveedores.find? (fun p => p.rut == documento.rut_emisor) with
  | some proveedor => (proveedor, base)
  | none =>
    let proveedor : TblProveedores :=
      { rut := documento.rut_emisor
      , razon_social := documento.razon_social.getD "Proveedor sin nombre"
      , cuenta_contable_default_id := some cuenta_gastos_default.id_cuenta }
    (proveedor, { base with proveedores := base.proveedores ++ [proveedor] })

/-- The tuple (folio, rut_emisor, tipo_dte) of documento collides with
an existing Tbl_Documentos row: the condition under which the INSERT at
line 57 violates uq_doc_folio_rut_tipo. -/
def claveDuplicada (documento : DocumentoDict) (fila : TblDocumentos) : Bool :=
  fila.folio == documento.folio && fila.rut_emisor == documento.rut_emisor &&
    fila.tipo_dte == documento.tipo_dte

/-- The narrative prefix built at line 63. -/
def glosa_base_de (documento : DocumentoDict) (proveedor : TblProveedores) : String :=
  "Compra DTE " ++ documento.tipo_dte ++ " Folio " ++ documento.folio ++ " - " ++
    proveedor.razon_social

/-- logica_contable.py lines 26-89, generar_asiento, as one atomic
transaction: an error outcome carries no store, modelling the rollback
of SessionLocal.begin().  TblDocumentos(**documento) at line 55 raises
TypeError whenever the dict carries the razon_social key (present in
every normalizer output), because Tbl_Documentos has no such column;
this happens before the INSERT, hence before the uniqueness check. -/
def generar_asiento (documento : DocumentoDict) (base : BaseDatos) :
    Except ErrorBD (ResultadoPost × BaseDatos) :=
  match _obtener_cuenta_por_nombre base "Gastos Generales (Por Clasificar)" with
  | .error e => .error e
  | .ok cuenta_gastos_default =>
  match _obtener_cuenta_por_nombre base "IVA Crédito Fiscal" with
  | .error e => .error e
  | .ok cuenta_iva =>
  match _obtener_cuenta_por_nombre base "Proveedores por Pagar" with
  | .error e => .error e
  | .ok cuenta_proveedores =>
  let pr := proveedor_resuelto documento base cuenta_gastos_default
  let proveedor := pr.1
  let base1 := pr.2
  let id_cuenta_gasto := pyOr proveedor.cuenta_contable_default_id cuenta_gastos_default.id_cuenta
  match documento.razon_social with
  | some _ => .error (.typeError "razon_social is an invalid keyword argument for TblDocumentos")
  | none =>
  if base1.documentos.any (claveDuplicada documento) then
    .error (.integrityError "UNIQUE constraint failed: Tbl_Documentos.folio, Tbl_Documentos.rut_emisor, Tbl_Documentos.tipo_dte")
  else
    let doc_db : TblDocumentos :=
      { id := base1.sig_id_documento
      , folio := documento.folio
      , tipo_dte := documento.tipo_dte
      , fecha_emision := documento.fecha_emision
      , rut_emisor := documento.rut_emisor
      , monto_neto := documento.monto_neto
      , monto_iva := documento.monto_iva
      , monto_total := documento.monto_total
      , url_archivo := documento.url_archivo }
    let asiento : TblAsientos :=
      { id := base1.sig_id_asiento, id_documento := doc_db.id, fecha := documento.fecha_emision }
    let glosa_base := glosa_base_de documento proveedor
    let movimientos : List TblMovimientosContables :=
      [ { id := base1.sig_id_movimiento
        , id_asiento := asiento.id
        , id_cuenta := id_cuenta_gasto
        , debe := documento.monto_neto
        , haber := 0
        , glosa := glosa_base ++ " | Gasto Neto" }
      , { id := base1.sig_id_movimiento + 1
        , id_asiento := asiento.id
        , id_cuenta := cuenta_iva.id_cuenta
        , debe := documento.monto_iva
        , haber := 0
        , glosa := glosa_base ++ " | IVA Crédito Fiscal" }
      , { id := base1.sig_id_movimiento + 2
        , id_asiento := asiento.id
        , id_cuenta := cuenta_proveedores.id_cuenta
        , debe := 0
        , haber := documento.monto_total
        , glosa := glosa_base ++ " | Proveedores por Pagar" } ]
    .ok (ResultadoPost.ok doc_db.id asiento.id,
      { base1 with
        documentos := base1.documentos ++ [doc_db]
        , asientos := base1.asientos ++ [asiento]
        , movimientos := base1.movimientos ++ movimientos
        , sig_id_documento := base1.sig_id_documento + 1
        , sig_id_asiento := base1.sig_id_asiento + 1
        , sig_id_movimiento := base1.sig_id_movimiento + 3 })

/-- logica_contable.py lines 92-97: the business wrapper that converts
exactly the IntegrityError kind into the duplicado result (with the
store rolled back to the input state) and lets any other exception
propagate. -/
def procesar_documento_con_control_duplicado (documento : DocumentoDict) (base : BaseDatos) :
    Except ErrorBD (ResultadoPost × BaseDatos) :=
  match generar_asiento documento base with
  | .error (.integrityError _) =>
    .ok (.duplicado "Documento ya existe (folio, rut, tipo_dte)", base)
  | resultado => resultado

/-! Concrete data used by the witnesses and counterexample
evaluations. -/

/-- Header dict of the C6 witness: Totales has a non-numeric IVA, a
numeric MntNeto and no MntTotal at all; Emisor is absent. -/
def encC6 : List (String × XmlVal) :=
  [ ("IdDoc", .dict [("FchEmis", .str "2024-05-01")])
  , ("Totales", .dict [("MntNeto", .str "1000"), ("IVA", .str "sin dato")]) ]

/-- Input tree of the C6 witness. -/
def arbolC6 : XmlVal := .dict [("Encabezado", .dict encC6)]

/-- Input tree of the C7 witness with an unparseable issue date. -/
def arbolFechaMala : XmlVal :=
  .dict [("Encabezado", .dict [("IdDoc", .dict [("FchEmis", .str "01-05-2024")])])]

/-- Input tree of the C7 witness with no issue date at all. -/
def arbolSinFecha : XmlVal :=
  .dict [("Encabezado", .dict [("IdDoc", .dict [("Folio", .str "9")])])]

/-- Header dict of the C10 witness: only a date inside IdDoc, an empty
Emisor, no Totales; folio, type and issuer id are absent. -/
def encC10 : List (String × XmlVal) :=
  [("IdDoc", .dict [("FchEmis", .str "2024-05-01")]), ("Emisor", .dict [])]

/-- Input tree of the C10 witness. -/
def arbolC10 : XmlVal := .dict [("Encabezado", .dict encC10)]

/-- The three mandatory chart-of-accounts rows, as seeded by
plan_cuentas.csv through seed_plan_cuentas. -/
def cuentasSemilla : List TblPlanCuentas :=
  [ ⟨1, "5.1.1", "Gastos Generales (Por Clasificar)", "Gasto"⟩
  , ⟨2, "1.1.2", "IVA Crédito Fiscal", "Activo"⟩
  , ⟨3, "2.1.1", "Proveedores por Pagar", "Pasivo"⟩ ]

/-- A freshly initialised store with the mandatory accounts. -/
def baseSemilla : BaseDatos := ⟨cuentasSemilla, [], [], [], [], 1, 1, 1⟩

/-- A store missing every account (seed CSV absent). -/
def baseVacia : BaseDatos := ⟨[], [], [], [], [], 1, 1, 1⟩

/-- A store whose chart of accounts lacks the payables row. -/
def baseSinPagar : BaseDatos :=
  ⟨[ ⟨1, "5.1.1", "Gastos Generales (Por Clasificar)", "Gasto"⟩
   , ⟨2, "1.1.2", "IVA Crédito Fiscal", "Activo"⟩ ], [], [], [], [], 1, 1, 1⟩

/-- The XML tree of the spec scenario (folio 123, type 33, Acme,
1000 + 190 = 1190). -/
def arbolAcme : XmlVal :=
  .dict [("DTE", .dict [("Documento", .dict [
    ("Encabezado", .dict [
      ("IdDoc", .dict [("Folio", .str "123"), ("TipoDTE", .str "33"),
        ("FchEmis", .str "2024-05-01")]),
      ("Emisor", .dict [("RUTEmisor", .str "76543210-1"), ("RznSoc", .str "Acme")]),
      ("Totales", .dict [("MntNeto", .str "1000"), ("IVA", .str "190"),
        ("MntTotal", .str "1190")])]),
    ("Detalle", .list [.str "item"])])])]

/-- The document of the spec scenario, exactly as the normalizer
produces it (razon_social key present). -/
def docAcme : DocumentoDict :=
  { folio := "123", tipo_dte := "33", fecha_emision := ⟨2024, 5, 1⟩
  , rut_emisor := "76543210-1", razon_social := some "Acme"
  , monto_neto := 1000, monto_iva := 190, monto_total := 1190
  , url_archivo := "factura_123.xml" }

/-- A posting-engine input dict without the razon_social key. -/
def docPrueba : DocumentoDict :=
  { folio := "777", tipo_dte := "33", fecha_emision := ⟨2024, 6, 1⟩
  , rut_emisor := "11111111-1", razon_social := none
  , monto_neto := 1000, monto_iva := 190, monto_total := 1190
  , url_archivo := "p.xml" }

/-- A specific expense account a supplier may be classified into. -/
def cuentaEspecifica : TblPlanCuentas := ⟨7, "5.2.7", "Arriendos", "Gasto"⟩

/-- A supplier already classified into account 7. -/
def provClasificado : TblProveedores := ⟨"22222222-2", "Ferreteria Sur", some 7⟩

/-- Store with the classified supplier present. -/
def baseClasificada : BaseDatos :=
  ⟨cuentasSemilla ++ [cuentaEspecifica], [provClasificado], [], [], [], 1, 1, 1⟩

/-- A document issued by the classified supplier, without razon_social. -/
def docDeProveedor : DocumentoDict :=
  { folio := "88", tipo_dte := "34", fecha_emision := ⟨2024, 7, 2⟩
  , rut_emisor := "22222222-2", razon_social := none
  , monto_neto := 500, monto_iva := 95, monto_total := 595
  , url_archivo := "q.xml" }

/-- Store already holding a document with the key of docPrueba. -/
def baseConDuplicado : BaseDatos :=
  ⟨cuentasSemilla, [],
   [⟨1, "777", "33", ⟨2024, 6, 1⟩, "11111111-1", 1000, 190, 1190, "p.xml"⟩],
   [], [], 2, 1, 1⟩

/-! Auxiliary lemmas about the normalizer. -/

theorem pyTruthy_dict_of_ne {hdr : List (String × XmlVal)} (h : hdr ≠ []) :
    pyTruthy (.dict hdr) = true := by
  cases hdr with
  | nil => exact absurd rfl h
  | cons a t => rfl

/-- Full evaluation of the normalizer when the structural parts are in
place: header found as a non-empty dict, IdDoc / Emisor / Totales
resolving to dicts, issue date present and well formed.  Every other
field is read leniently from those dicts. -/
theorem parsear_estructura
    (data : XmlVal) (nombre : String) (hdr idv emv totv : List (String × XmlVal))
    (fs : String) (fecha : Fecha)
    (hEnc : _buscar_nodo_recursivo data "Encabezado" = .dict hdr)
    (hne : hdr ≠ [])
    (hId : dict_get hdr "IdDoc" (.dict []) = .dict idv)
    (hEm : dict_get hdr "Emisor" (.dict []) = .dict emv)
    (hTot : dict_get hdr "Totales" (.dict []) = .dict totv)
    (hF : dict_get idv "FchEmis" .null = .str fs)
    (hFecha : strptime_iso fs = some fecha) :
    parsear_dte_xml (.ok data) nombre = .ok
      { folio := recortar (pyStr (dict_get idv "Folio" (.str "")))
      , tipo_dte := recortar (pyStr (dict_get idv "TipoDTE" (.str "")))
      , fecha_emision := fecha
      , rut_emisor := recortar (pyStr (dict_get emv "RUTEmisor" (.str "")))
      , razon_social := some (recortar (pyStr (dict_get emv "RznSoc" (.str "Proveedor sin nombre"))))
      , monto_neto := _safe_float (dict_get totv "MntNeto" .null)
      , monto_iva := _safe_float (dict_get totv "IVA" .null)
      , monto_total := _safe_float (dict_get totv "MntTotal" .null)
      , url_archivo := nombre } := by
  have htruthy := pyTruthy_dict_of_ne hne
  unfold parsear_dte_xml
  simp only [parsear_cuerpo, hEnc, htruthy, Bool.true_eq_false, if_false, py_get, hId, hEm,
    hTot, hF, strptime_val, hFecha]

/-- C6: for every input XML whose monetary fields (net, tax, total) are
absent or non-numeric, normalization does not fail on those fields (the
structural hypotheses make no demand on the Totales content, yet the
parse succeeds): each such field resolves to 0.0, while numeric values
are coerced to their exact value. -/
theorem claim6_coercion_monetaria_leniente
    (data : XmlVal) (nombre : String) (hdr idv emv totv : List (String × XmlVal))
    (fs : String) (fecha : Fecha)
    (hEnc : _buscar_nodo_recursivo data "Encabezado" = .dict hdr)
    (hne : hdr ≠ [])
    (hId : dict_get hdr "IdDoc" (.dict []) = .dict idv)
    (hEm : dict_get hdr "Emisor" (.dict []) = .dict emv)
    (hTot : dict_get hdr "Totales" (.dict []) = .dict totv)
    (hF : dict_get idv "FchEmis" .null = .str fs)
    (hFecha : strptime_iso fs = some fecha) :
    (∃ d, parsear_dte_xml (.ok data) nombre = .ok d ∧
       d.monto_neto = _safe_float (dict_get totv "MntNeto" .null) ∧
       d.monto_iva = _safe_float (dict_get totv "IVA" .null) ∧
       d.monto_total = _safe_float (dict_get totv "MntTotal" .null)) ∧
    _safe_float .null = 0 ∧
    (∀ s, pyFloat? s = none → _safe_float (.str s) = 0) ∧
    (∀ s q, pyFloat? s = some q → _safe_float (.str s) = q) := by
  refine ⟨⟨_, parsear_estructura data nombre hdr idv emv totv fs fecha
    hEnc hne hId hEm hTot hF hFecha, rfl, rfl, rfl⟩, rfl, ?_, ?_⟩
  · intro s h
    simp [_safe_float, h]
  · intro s q h
    simp [_safe_float, h]

/-- Witness for C6: the document normalizes despite the broken totals,
with tax and total 0.0 and the numeric net kept. -/
theorem claim6_witness :
    ∃ d, parsear_dte_xml (.ok arbolC6) "c6.xml" = .ok d ∧
      d.monto_neto = 1000 ∧ d.monto_iva = 0 ∧ d.monto_total = 0 := by
  obtain ⟨⟨d, hok, hneto, hiva, htotal⟩, -, -, -⟩ :=
    claim6_coercion_monetaria_leniente arbolC6 "c6.xml" encC6
      [("FchEmis", .str "2024-05-01")] [] [("MntNeto", .str "1000"), ("IVA", .str "sin dato")]
      "2024-05-01" ⟨2024, 5, 1⟩ rfl (by simp [encC6]) rfl rfl rfl rfl (by decide)
  refine ⟨d, hok, ?_, ?_, ?_⟩
  · rw [hneto]; decide
  · rw [hiva]; decide
  · rw [htotal]; decide

/-- C7: normalization either succeeds or fails with the single wrapped
error kind carrying the source filename and a cause; in particular a
malformed XML, a header anchor that is nowhere in the tree (or falsy),
and a missing or unparseable issue date all produce that error.  No
other exception kind exists in the return type. -/
theorem claim7_error_unico_con_archivo (resultado : Except String XmlVal) (nombre : String) :
    ((∃ d, parsear_dte_xml resultado nombre = .ok d) ∨
      (∃ causa, parsear_dte_xml resultado nombre = .error ⟨nombre, causa⟩)) ∧
    (∀ m, resultado = .error m → parsear_dte_xml resultado nombre = .error ⟨nombre, m⟩) ∧
    (∀ data, resultado = .ok data →
      pyTruthy (_buscar_nodo_recursivo data "Encabezado") = false →
      parsear_dte_xml resultado nombre = .error ⟨nombre, mensajeSinEncabezado⟩) ∧
    (∀ data hdr idv, resultado = .ok data →
      _buscar_nodo_recursivo data "Encabezado" = .dict hdr → hdr ≠ [] →
      dict_get hdr "IdDoc" (.dict []) = .dict idv →
      (∀ fs, dict_get idv "FchEmis" .null = .str fs → strptime_iso fs = none) →
      ∃ causa, parsear_dte_xml resultado nombre = .error ⟨nombre, causa⟩) := by
  refine ⟨?_, ?_, ?_, ?_⟩
  · cases h : parsear_cuerpo resultado nombre with
    | ok d => exact Or.inl ⟨d, by simp [parsear_dte_xml, h]⟩
    | error causa => exact Or.inr ⟨causa, by simp [parsear_dte_xml, h]⟩
  · intro m h
    subst h
    rfl
  · intro data h htruthy
    subst h
    simp [parsear_dte_xml, parsear_cuerpo, htruthy]
  · intro data hdr idv h hEnc hne hId hFch
    subst h
    have htruthy := pyTruthy_dict_of_ne hne
    cases hval : dict_get idv "FchEmis" .null with
    | null =>
      exact ⟨"TypeError: strptime requiere un str", by simp [parsear_dte_xml, parsear_cuerpo,
        hEnc, htruthy, py_get, hId, hval, strptime_val]⟩
    | str fs =>
      have hno := hFch fs hval
      exact ⟨"ValueError: la fecha no coincide con el formato %Y-%m-%d",
        by simp [parsear_dte_xml, parsear_cuerpo, hEnc, htruthy, py_get, hId, hval,
          strptime_val, hno]⟩
    | dict entradas =>
      exact ⟨"TypeError: strptime requiere un str", by simp [parsear_dte_xml, parsear_cuerpo,
        hEnc, htruthy, py_get, hId, hval, strptime_val]⟩
    | list items =>
      exact ⟨"TypeError: strptime requiere un str", by simp [parsear_dte_xml, parsear_cuerpo,
        hEnc, htruthy, py_get, hId, hval, strptime_val]⟩

/-- Witness for C7: a malformed payload, a tree without the header
anchor, a missing date and an unparseable date each yield the wrapped
error naming the respective source file. -/
theorem claim7_witness :
    parsear_dte_xml (.error "documento truncado") "a.xml" =
      .error ⟨"a.xml", "documento truncado"⟩ ∧
    parsear_dte_xml (.ok (.dict [("Otro", .str "x")])) "b.xml" =
      .error ⟨"b.xml", mensajeSinEncabezado⟩ ∧
    (∃ causa, parsear_dte_xml (.ok arbolSinFecha) "c.xml" = .error ⟨"c.xml", causa⟩) ∧
    (∃ causa, parsear_dte_xml (.ok arbolFechaMala) "d.xml" = .error ⟨"d.xml", causa⟩) := by
  refine ⟨(claim7_error_unico_con_archivo (.error "documento truncado") "a.xml").2.1 _ rfl,
    (claim7_error_unico_con_archivo (.ok (.dict [("Otro", .str "x")])) "b.xml").2.2.1 _ rfl rfl,
    (claim7_error_unico_con_archivo (.ok arbolSinFecha) "c.xml").2.2.2 arbolSinFecha
      [("IdDoc", .dict [("Folio", .str "9")])] [("Folio", .str "9")] rfl rfl (by simp) rfl ?_,
    (claim7_error_unico_con_archivo (.ok arbolFechaMala) "d.xml").2.2.2 arbolFechaMala
      [("IdDoc", .dict [("FchEmis", .str "01-05-2024")])] [("FchEmis", .str "01-05-2024")]
      rfl rfl (by simp) rfl ?_⟩
  · intro fs h
    exact False.elim (XmlVal.noConfusion h)
  · intro fs h
    have hfs := XmlVal.str.inj h
    rw [← hfs]
    decide

/-- C8: when the recursive search finds an Encabezado node whose value
is empty (None as an empty XML element parses to, an empty string, or
an empty mapping), normalization fails with exactly the same
missing-header error as when the key is absent (in which case the
search also returns None). -/
theorem claim8_encabezado_vacio (data : XmlVal) (nombre : String) (v : XmlVal)
    (hEnc : _buscar_nodo_recursivo data "Encabezado" = v)
    (hvacio : v = .null ∨ v = .str "" ∨ v = .dict []) :
    parsear_dte_xml (.ok data) nombre = .error ⟨nombre, mensajeSinEncabezado⟩ := by
  have htruthy : pyTruthy v = false := by
    rcases hvacio with h | h | h <;> subst h <;> rfl
  rw [← hEnc] at htruthy
  simp [parsear_dte_xml, parsear_cuerpo, htruthy]

/-- Witness for C8: a tree whose nested Encabezado holds None (an empty
element) and one whose Encabezado is an empty mapping both fail exactly
like the absent-header case. -/
theorem claim8_witness :
    parsear_dte_xml (.ok (.dict [("DTE", .dict [("Encabezado", .null)])])) "w.xml" =
      .error ⟨"w.xml", mensajeSinEncabezado⟩ ∧
    parsear_dte_xml (.ok (.dict [("Encabezado", .dict [])])) "x.xml" =
      .error ⟨"x.xml", mensajeSinEncabezado⟩ :=
  ⟨claim8_encabezado_vacio _ "w.xml" .null rfl (Or.inl rfl),
    claim8_encabezado_vacio _ "x.xml" (.dict []) rfl (Or.inr (Or.inr rfl))⟩

/-- C10: normalization never fails because folio, document type or
issuer identifier is absent: with those keys missing, the document
still parses and each of the three fields is the empty string, so the
deduplication triple is made of empty strings. -/
theorem claim10_identificadores_ausentes
    (data : XmlVal) (nombre : String) (hdr idv emv totv : List (String × XmlVal))
    (fs : String) (fecha : Fecha)
    (hEnc : _buscar_nodo_recursivo data "Encabezado" = .dict hdr)
    (hne : hdr ≠ [])
    (hId : dict_get hdr "IdDoc" (.dict []) = .dict idv)
    (hEm : dict_get hdr "Emisor" (.dict []) = .dict emv)
    (hTot : dict_get hdr "Totales" (.dict []) = .dict totv)
    (hF : dict_get idv "FchEmis" .null = .str fs)
    (hFecha : strptime_iso fs = some fecha)
    (hFolio : idv.find? (fun par => par.1 == "Folio") = none)
    (hTipo : idv.find? (fun par => par.1 == "TipoDTE") = none)
    (hRut : emv.find? (fun par => par.1 == "RUTEmisor") = none) :
    ∃ d, parsear_dte_xml (.ok data) nombre = .ok d ∧
      d.folio = "" ∧ d.tipo_dte = "" ∧ d.rut_emisor = "" := by
  refine ⟨_, parsear_estructura data nombre hdr idv emv totv fs fecha
    hEnc hne hId hEm hTot hF hFecha, ?_, ?_, ?_⟩ <;>
    · simp only [dict_get, hFolio, hTipo, hRut, pyStr]
      decide

/-- Witness for C10: a document with no identifying fields normalizes
to empty-string folio, type and issuer id. -/
theorem claim10_witness :
    ∃ d, parsear_dte_xml (.ok arbolC10) "c10.xml" = .ok d ∧
      d.folio = "" ∧ d.tipo_dte = "" ∧ d.rut_emisor = "" :=
  claim10_identificadores_ausentes arbolC10 "c10.xml" encC10
    [("FchEmis", .str "2024-05-01")] [] [] "2024-05-01" ⟨2024, 5, 1⟩
    rfl (by simp [encC10]) rfl rfl rfl rfl (by decide) rfl rfl rfl

/-! Auxiliary lemmas about the posting engine. -/

theorem except_isOk_exists {ε α : Type} {x : Except ε α} (h : x.isOk = true) :
    ∃ a, x = .ok a := by
  cases x with
  | ok a => exact ⟨a, rfl⟩
  | error e => exact absurd h (by simp [Except.isOk, Except.toBool])

@[simp] theorem proveedor_resuelto_plan (documento : DocumentoDict) (base : BaseDatos)
    (cg : TblPlanCuentas) :
    (proveedor_resuelto documento base cg).2.plan_cuentas = base.plan_cuentas := by
  unfold proveedor_resuelto
  cases base.proveedores.find? (fun p => p.rut == documento.rut_emisor) <;> rfl

@[simp] theorem proveedor_resuelto_documentos (documento : DocumentoDict) (base : BaseDatos)
    (cg : TblPlanCuentas) :
    (proveedor_resuelto documento base cg).2.documentos = base.documentos := by
  unfold proveedor_resuelto
  cases base.proveedores.find? (fun p => p.rut == documento.rut_emisor) <;> rfl

@[simp] theorem proveedor_resuelto_asientos (documento : DocumentoDict) (base : BaseDatos)
    (cg : TblPlanCuentas) :
    (proveedor_resuelto documento base cg).2.asientos = base.asientos := by
  unfold proveedor_resuelto
  cases base.proveedores.find? (fun p => p.rut == documento.rut_emisor) <;> rfl

@[simp] theorem proveedor_resuelto_movimientos (documento : DocumentoDict) (base : BaseDatos)
    (cg : TblPlanCuentas) :
    (proveedor_resuelto documento base cg).2.movimientos = base.movimientos := by
  unfold proveedor_resuelto
  cases base.proveedores.find? (fun p => p.rut == documento.rut_emisor) <;> rfl

@[simp] theorem proveedor_resuelto_sig_doc (documento : DocumentoDict) (base : BaseDatos)
    (cg : TblPlanCuentas) :
    (proveedor_resuelto documento base cg).2.sig_id_documento = base.sig_id_documento := by
  unfold proveedor_resuelto
  cases base.proveedores.find? (fun p => p.rut == documento.rut_emisor) <;> rfl

@[simp] theorem proveedor_resuelto_sig_asiento (documento : DocumentoDict) (base : BaseDatos)
    (cg : TblPlanCuentas) :
    (proveedor_resuelto documento base cg).2.sig_id_asiento = base.sig_id_asiento := by
  unfold proveedor_resuelto
  cases base.proveedores.find? (fun p => p.rut == documento.rut_emisor) <;> rfl

@[simp] theorem proveedor_resuelto_sig_mov (documento : DocumentoDict) (base : BaseDatos)
    (cg : TblPlanCuentas) :
    (proveedor_resuelto documento base cg).2.sig_id_movimiento = base.sig_id_movimiento := by
  unfold proveedor_resuelto
  cases base.proveedores.find? (fun p => p.rut == documento.rut_emisor) <;> rfl

/-- Full description of a successful run of generar_asiento: the three
account lookups succeeded, the dict had no razon_social key (otherwise
the declarative constructor raises), no row collided on the dedup key,
and the result and final store are exactly the inserted rows. -/
theorem generar_asiento_ok_desc (documento : DocumentoDict) (base : BaseDatos)
    (res : ResultadoPost) (base2 : BaseDatos)
    (h : generar_asiento documento base = .ok (res, base2)) :
    ∃ cg ci cp,
      _obtener_cuenta_por_nombre base "Gastos Generales (Por Clasificar)" = .ok cg ∧
      _obtener_cuenta_por_nombre base "IVA Crédito Fiscal" = .ok ci ∧
      _obtener_cuenta_por_nombre base "Proveedores por Pagar" = .ok cp ∧
      documento.razon_social = none ∧
      base.documentos.any (claveDuplicada documento) = false ∧
      res = ResultadoPost.ok base.sig_id_documento base.sig_id_asiento ∧
      base2 =
        { plan_cuentas := base.plan_cuentas
        , proveedores := (proveedor_resuelto documento base cg).2.proveedores
        , documentos := base.documentos ++
            [ { id := base.sig_id_documento
              , folio := documento.folio
              , tipo_dte := documento.tipo_dte
              , fecha_emision := documento.fecha_emision
              , rut_emisor := documento.rut_emisor
              , monto_neto := documento.monto_neto
              , monto_iva := documento.monto_iva
              , monto_total := documento.monto_total
              , url_archivo := documento.url_archivo } ]
        , asientos := base.asientos ++
            [⟨base.sig_id_asiento, base.sig_id_documento, documento.fecha_emision⟩]
        , movimientos := base.movimientos ++
            [ ⟨base.sig_id_movimiento, base.sig_id_asiento,
                pyOr (proveedor_resuelto documento base cg).1.cuenta_contable_default_id
                  cg.id_cuenta,
                documento.monto_neto, 0,
                glosa_base_de documento (proveedor_resuelto documento base cg).1 ++
                  " | Gasto Neto"⟩
            , ⟨base.sig_id_movimiento + 1, base.sig_id_asiento, ci.id_cuenta,
                documento.monto_iva, 0,
                glosa_base_de documento (proveedor_resuelto documento base cg).1 ++
                  " | IVA Crédito Fiscal"⟩
            , ⟨base.sig_id_movimiento + 2, base.sig_id_asiento, cp.id_cuenta,
                0, documento.monto_total,
                glosa_base_de documento (proveedor_resuelto documento base cg).1 ++
                  " | Proveedores por Pagar"⟩ ]
        , sig_id_documento := base.sig_id_documento + 1
        , sig_id_asiento := base.sig_id_asiento + 1
        , sig_id_movimiento := base.sig_id_movimiento + 3 } := by
  unfold generar_asiento at h
  cases hcg : _obtener_cuenta_por_nombre base "Gastos Generales (Por Clasificar)" with
  | error e => rw [hcg] at h; exact Except.noConfusion h
  | ok cg =>
  rw [hcg] at h
  cases hci : _obtener_cuenta_por_nombre base "IVA Crédito Fiscal" with
  | error e => rw [hci] at h; exact Except.noConfusion h
  | ok ci =>
  rw [hci] at h
  cases hcp : _obtener_cuenta_por_nombre base "Proveedores por Pagar" with
  | error e => rw [hcp] at h; exact Except.noConfusion h
  | ok cp =>
  rw [hcp] at h
  cases hraz : documento.razon_social with
  | some s => rw [hraz] at h; exact Except.noConfusion h
  | none =>
  rw [hraz] at h
  simp only at h
  cases hany : (proveedor_resuelto documento base cg).2.documentos.any (claveDuplicada documento) with
  | true =>
    rw [hany] at h
    simp only [if_true] at h
    exact Except.noConfusion h
  | false =>
  rw [hany] at h
  simp only [Bool.false_eq_true, if_false, Except.ok.injEq, Prod.mk.injEq] at h
  obtain ⟨hres, hbase2⟩ := h
  rw [proveedor_resuelto_documentos] at hany
  refine ⟨cg, ci, cp, rfl, rfl, rfl, rfl, hany, ?_, ?_⟩
  · rw [← hres]
    simp
  · rw [← hbase2]
    simp [glosa_base_de]

/-- C1: for every document record with net + tax = total, a successful
post creates exactly three movements for the ledger entry, and the sum
of their debits equals the sum of their credits equals the total
(debit expense = net, debit tax-credit = tax, credit payables =
total). -/
theorem claim1_balance_partida_doble (documento : DocumentoDict) (base : BaseDatos)
    (res : ResultadoPost) (base2 : BaseDatos)
    (h : generar_asiento documento base = .ok (res, base2))
    (hbal : documento.monto_neto + documento.monto_iva = documento.monto_total) :
    ∃ did aid m1 m2 m3, res = ResultadoPost.ok did aid ∧
      base2.movimientos = base.movimientos ++ [m1, m2, m3] ∧
      m1.id_asiento = aid ∧ m2.id_asiento = aid ∧ m3.id_asiento = aid ∧
      m1.debe = documento.monto_neto ∧ m2.debe = documento.monto_iva ∧
      m3.haber = documento.monto_total ∧
      m1.debe + m2.debe + m3.debe = documento.monto_total ∧
      m1.haber + m2.haber + m3.haber = documento.monto_total := by
  obtain ⟨cg, ci, cp, -, -, -, -, -, hres, hbase2⟩ :=
    generar_asiento_ok_desc documento base res base2 h
  subst hbase2
  refine ⟨base.sig_id_documento, base.sig_id_asiento, _, _, _, hres, rfl,
    rfl, rfl, rfl, rfl, rfl, rfl, ?_, ?_⟩
  · show documento.monto_neto + documento.monto_iva + 0 = documento.monto_total
    rw [add_zero]
    exact hbal
  · show 0 + 0 + documento.monto_total = documento.monto_total
    rw [zero_add, zero_add]

/-- Witness for C1: posting a balanced document on a seeded store
succeeds and yields the balanced three-movement entry. -/
theorem claim1_witness :
    ∃ res base2, generar_asiento docPrueba baseSemilla = .ok (res, base2) ∧
      ∃ did aid m1 m2 m3, res = ResultadoPost.ok did aid ∧
        base2.movimientos = baseSemilla.movimientos ++ [m1, m2, m3] ∧
        m1.id_asiento = aid ∧ m2.id_asiento = aid ∧ m3.id_asiento = aid ∧
        m1.debe = docPrueba.monto_neto ∧ m2.debe = docPrueba.monto_iva ∧
        m3.haber = docPrueba.monto_total ∧
        m1.debe + m2.debe + m3.debe = docPrueba.monto_total ∧
        m1.haber + m2.haber + m3.haber = docPrueba.monto_total := by
  obtain ⟨⟨res, base2⟩, h⟩ :=
    except_isOk_exists (x := generar_asiento docPrueba baseSemilla) (by decide)
  exact ⟨res, base2, h,
    claim1_balance_partida_doble docPrueba baseSemilla res base2 h (by norm_num [docPrueba])⟩

/-- C9: every movement the posting engine creates has at least one of
debit/credit equal to 0.0: the expense and tax-credit lines carry
credit 0.0 and the payables line carries debit 0.0. -/
theorem claim9_movimiento_un_solo_lado (documento : DocumentoDict) (base : BaseDatos)
    (res : ResultadoPost) (base2 : BaseDatos)
    (h : generar_asiento documento base = .ok (res, base2)) :
    ∃ m1 m2 m3, base2.movimientos = base.movimientos ++ [m1, m2, m3] ∧
      m1.haber = 0 ∧ m2.haber = 0 ∧ m3.debe = 0 ∧
      ∀ m ∈ [m1, m2, m3], m.debe = 0 ∨ m.haber = 0 := by
  obtain ⟨cg, ci, cp, -, -, -, -, -, -, hbase2⟩ :=
    generar_asiento_ok_desc documento base res base2 h
  subst hbase2
  refine ⟨_, _, _, rfl, rfl, rfl, rfl, ?_⟩
  intro m hm
  simp only [List.mem_cons, List.not_mem_nil, or_false] at hm
  rcases hm with hm | hm | hm <;> subst hm
  · right
    rfl
  · right
    rfl
  · left
    rfl

/-- Witness for C9: the three movements of a concrete post each have a
zero side. -/
theorem claim9_witness :
    ∃ res base2, generar_asiento docPrueba baseSemilla = .ok (res, base2) ∧
      ∃ m1 m2 m3, base2.movimientos = baseSemilla.movimientos ++ [m1, m2, m3] ∧
        m1.haber = 0 ∧ m2.haber = 0 ∧ m3.debe = 0 ∧
        ∀ m ∈ [m1, m2, m3], m.debe = 0 ∨ m.haber = 0 := by
  obtain ⟨⟨res, base2⟩, h⟩ :=
    except_isOk_exists (x := generar_asiento docPrueba baseSemilla) (by decide)
  exact ⟨res, base2, h, claim9_movimiento_un_solo_lado docPrueba baseSemilla res base2 h⟩

/-- C4: in every successful post the expense movement debits the
supplier default account when one is set (nonzero, as autoincrement ids
are), and the fallback account otherwise; the debited amount is the net
amount in both cases; an unknown supplier is created with the fallback
account as its default. -/
theorem claim4_cuenta_del_gasto (documento : DocumentoDict) (base : BaseDatos)
    (res : ResultadoPost) (base2 : BaseDatos)
    (h : generar_asiento documento base = .ok (res, base2)) :
    ∃ cg, _obtener_cuenta_por_nombre base "Gastos Generales (Por Clasificar)" = .ok cg ∧
      ∃ m1 resto, base2.movimientos = base.movimientos ++ (m1 :: resto) ∧
        m1.debe = documento.monto_neto ∧
        (∀ p, base.proveedores.find? (fun q => q.rut == documento.rut_emisor) = some p →
          (∀ a, p.cuenta_contable_default_id = some a → a ≠ 0 → m1.id_cuenta = a) ∧
          (p.cuenta_contable_default_id = none → m1.id_cuenta = cg.id_cuenta)) ∧
        (base.proveedores.find? (fun q => q.rut == documento.rut_emisor) = none →
          m1.id_cuenta = cg.id_cuenta ∧
          base2.proveedores = base.proveedores ++
            [⟨documento.rut_emisor, documento.razon_social.getD "Proveedor sin nombre",
              some cg.id_cuenta⟩]) := by
  obtain ⟨cg, ci, cp, hcg, -, -, -, -, -, hbase2⟩ :=
    generar_asiento_ok_desc documento base res base2 h
  subst hbase2
  refine ⟨cg, hcg, _, _, rfl, rfl, ?_, ?_⟩
  · intro p hp
    constructor
    · intro a ha hnz
      show pyOr (proveedor_resuelto documento base cg).1.cuenta_contable_default_id
        cg.id_cuenta = a
      unfold proveedor_resuelto
      rw [hp]
      simp [pyOr, ha, hnz]
    · intro hninguna
      show pyOr (proveedor_resuelto documento base cg).1.cuenta_contable_default_id
        cg.id_cuenta = cg.id_cuenta
      unfold proveedor_resuelto
      rw [hp]
      simp [pyOr, hninguna]
  · intro hausente
    constructor
    · show pyOr (proveedor_resuelto documento base cg).1.cuenta_contable_default_id
        cg.id_cuenta = cg.id_cuenta
      unfold proveedor_resuelto
      rw [hausente]
      simp [pyOr]
    · show (proveedor_resuelto documento base cg).2.proveedores = base.proveedores ++
        [⟨documento.rut_emisor, documento.razon_social.getD "Proveedor sin nombre",
          some cg.id_cuenta⟩]
      unfold proveedor_resuelto
      rw [hausente]

/-- Witness for C4: the classified supplier routes the net amount to
its own account 7, and an unknown supplier is created with the fallback
account and debited there. -/
theorem claim4_witness :
    (∃ res base2 cg m1 resto,
      generar_asiento docDeProveedor baseClasificada = .ok (res, base2) ∧
      _obtener_cuenta_por_nombre baseClasificada "Gastos Generales (Por Clasificar)" = .ok cg ∧
      base2.movimientos = baseClasificada.movimientos ++ (m1 :: resto) ∧
      m1.debe = docDeProveedor.monto_neto ∧ m1.id_cuenta = 7) ∧
    (∃ res base2 cg m1 resto,
      generar_asiento docPrueba baseSemilla = .ok (res, base2) ∧
      _obtener_cuenta_por_nombre baseSemilla "Gastos Generales (Por Clasificar)" = .ok cg ∧
      base2.movimientos = baseSemilla.movimientos ++ (m1 :: resto) ∧
      m1.debe = docPrueba.monto_neto ∧ m1.id_cuenta = cg.id_cuenta ∧
      base2.proveedores = baseSemilla.proveedores ++
        [⟨docPrueba.rut_emisor, "Proveedor sin nombre", some cg.id_cuenta⟩]) := by
  constructor
  · obtain ⟨⟨res, base2⟩, h⟩ :=
      except_isOk_exists (x := generar_asiento docDeProveedor baseClasificada) (by decide)
    obtain ⟨cg, hcg, m1, resto, hmov, hdebe, halguno, -⟩ :=
      claim4_cuenta_del_gasto docDeProveedor baseClasificada res base2 h
    refine ⟨res, base2, cg, m1, resto, h, hcg, hmov, hdebe, ?_⟩
    exact (halguno provClasificado (by decide)).1 7 rfl (by decide)
  · obtain ⟨⟨res, base2⟩, h⟩ :=
      except_isOk_exists (x := generar_asiento docPrueba baseSemilla) (by decide)
    obtain ⟨cg, hcg, m1, resto, hmov, hdebe, -, hnuevo⟩ :=
      claim4_cuenta_del_gasto docPrueba baseSemilla res base2 h
    obtain ⟨hcuenta, hprov⟩ := hnuevo (by decide)
    exact ⟨res, base2, cg, m1, resto, h, hcg, hmov, hdebe, hcuenta, hprov⟩

/-- C3: if any of the three mandatory chart-of-accounts rows is absent,
posting fails with the ConfigurationError kind (ValueError) before any
row is written (an error outcome carries no store), and the wrapper
neither converts it into duplicado nor swallows it. -/
theorem claim3_configuracion_fatal (documento : DocumentoDict) (base : BaseDatos)
    (hfalta :
      base.plan_cuentas.find? (fun c => c.nombre == "Gastos Generales (Por Clasificar)") = none ∨
      base.plan_cuentas.find? (fun c => c.nombre == "IVA Crédito Fiscal") = none ∨
      base.plan_cuentas.find? (fun c => c.nombre == "Proveedores por Pagar") = none) :
    ∃ mensaje, generar_asiento documento base = .error (.valueError mensaje) ∧
      procesar_documento_con_control_duplicado documento base =
        .error (.valueError mensaje) := by
  cases h1 : base.plan_cuentas.find? (fun c => c.nombre == "Gastos Generales (Por Clasificar)") with
  | none =>
    have hgen : generar_asiento documento base =
        .error (.valueError ("No existe la cuenta obligatoria: " ++
          "Gastos Generales (Por Clasificar)")) := by
      simp [generar_asiento, _obtener_cuenta_por_nombre, h1]
    exact ⟨_, hgen, by simp [procesar_documento_con_control_duplicado, hgen]⟩
  | some c1 =>
    cases h2 : base.plan_cuentas.find? (fun c => c.nombre == "IVA Crédito Fiscal") with
    | none =>
      have hgen : generar_asiento documento base =
          .error (.valueError ("No existe la cuenta obligatoria: " ++ "IVA Crédito Fiscal")) := by
        simp [generar_asiento, _obtener_cuenta_por_nombre, h1, h2]
      exact ⟨_, hgen, by simp [procesar_documento_con_control_duplicado, hgen]⟩
    | some c2 =>
      cases h3 : base.plan_cuentas.find? (fun c => c.nombre == "Proveedores por Pagar") with
      | none =>
        have hgen : generar_asiento documento base =
            .error (.valueError ("No existe la cuenta obligatoria: " ++
              "Proveedores por Pagar")) := by
          simp [generar_asiento, _obtener_cuenta_por_nombre, h1, h2, h3]
        exact ⟨_, hgen, by simp [procesar_documento_con_control_duplicado, hgen]⟩
      | some c3 =>
        rcases hfalta with hf | hf | hf
        · rw [hf] at h1
          exact Option.noConfusion h1
        · rw [hf] at h2
          exact Option.noConfusion h2
        · rw [hf] at h3
          exact Option.noConfusion h3

/-- Witness for C3: a chart of accounts without the payables row makes
both the engine and the wrapper fail with the ValueError kind. -/
theorem claim3_witness :
    ∃ mensaje, generar_asiento docPrueba baseSinPagar = .error (.valueError mensaje) ∧
      procesar_documento_con_control_duplicado docPrueba baseSinPagar =
        .error (.valueError mensaje) :=
  claim3_configuracion_fatal docPrueba baseSinPagar (Or.inr (Or.inr (by decide)))

/-- C5: the wrapper translates exactly the IntegrityError kind into the
duplicado result (with the store unchanged); every other failure kind,
and every success, passes through unchanged. -/
theorem claim5_traduccion_solo_integridad (documento : DocumentoDict) (base : BaseDatos) :
    (∀ m, generar_asiento documento base = .error (.integrityError m) →
      procesar_documento_con_control_duplicado documento base =
        .ok (.duplicado "Documento ya existe (folio, rut, tipo_dte)", base)) ∧
    (∀ e, generar_asiento documento base = .error e → (∀ m, e ≠ .integrityError m) →
      procesar_documento_con_control_duplicado documento base = .error e) ∧
    (∀ r, generar_asiento documento base = .ok r →
      procesar_documento_con_control_duplicado documento base = .ok r) := by
  refine ⟨?_, ?_, ?_⟩
  · intro m h
    simp [procesar_documento_con_control_duplicado, h]
  · intro e h hne
    cases e with
    | valueError s => simp [procesar_documento_con_control_duplicado, h]
    | integrityError s => exact absurd rfl (hne s)
    | typeError s => simp [procesar_documento_con_control_duplicado, h]
  · intro r h
    simp [procesar_documento_con_control_duplicado, h]

/-- Witness for C5: an integrity violation becomes duplicado with the
store untouched, while a configuration ValueError and the razon_social
TypeError both pass through the wrapper unchanged. -/
theorem claim5_witness :
    procesar_documento_con_control_duplicado docPrueba baseConDuplicado =
      .ok (.duplicado "Documento ya existe (folio, rut, tipo_dte)", baseConDuplicado) ∧
    procesar_documento_con_control_duplicado docPrueba baseVacia =
      .error (.valueError "No existe la cuenta obligatoria: Gastos Generales (Por Clasificar)") ∧
    procesar_documento_con_control_duplicado docAcme baseSemilla =
      .error (.typeError "razon_social is an invalid keyword argument for TblDocumentos") := by
  refine ⟨(claim5_traduccion_solo_integridad docPrueba baseConDuplicado).1
      "UNIQUE constraint failed: Tbl_Documentos.folio, Tbl_Documentos.rut_emisor, Tbl_Documentos.tipo_dte"
      (by decide),
    (claim5_traduccion_solo_integridad docPrueba baseVacia).2.1
      (.valueError "No existe la cuenta obligatoria: Gastos Generales (Por Clasificar)")
      (by decide) ?_,
    (claim5_traduccion_solo_integridad docAcme baseSemilla).2.1
      (.typeError "razon_social is an invalid keyword argument for TblDocumentos")
      (by decide) ?_⟩
  · intro m hm
    exact ErrorBD.noConfusion hm
  · intro m hm
    exact ErrorBD.noConfusion hm

/-- C2 (counterexample evaluation): the spec scenario document, exactly
as parsear_dte_xml produces it, never reaches the Posted outcome: the
first post raises TypeError because the dict carries razon_social,
which is not a Tbl_Documentos column, and the wrapper propagates it
(only IntegrityError is caught).  So posting the same key twice yields
this error twice, not Posted then Duplicate. -/
theorem claim2_primer_post_typeerror :
    parsear_dte_xml (.ok arbolAcme) "factura_123.xml" = .ok docAcme ∧
    generar_asiento docAcme baseSemilla =
      .error (.typeError "razon_social is an invalid keyword argument for TblDocumentos") ∧
    procesar_documento_con_control_duplicado docAcme baseSemilla =
      .error (.typeError "razon_social is an invalid keyword argument for TblDocumentos") := by
  refine ⟨by decide, by decide, by decide⟩

end ContabPy
